import Mathlib

/-!
Verification of the CoAP Zephyr client controllers (mbedtls classical
variant, mbedtls post-quantum variant, wolfssl variant).

The three `main` functions of the repository are shallowly embedded as
pure Lean functions over an environment `Env` that records the outcome
of every external call (URI parsing, Wi-Fi attempts, libcoap context,
session, PDU and option construction, `coap_send`, and the sequence of
`coap_io_process` returns).  Resource creation/release and the Wi-Fi
retry actions are recorded as explicit traces so that cleanup and retry
claims can be stated over them.
-/

/-! ## Exit codes and fixed constants from the source -/

def EXIT_SUCCESS : Nat := 0
def EXIT_FAILURE : Nat := 1

def COAP_DEFAULT_PORT : Nat := 5683
def COAPS_DEFAULT_PORT : Nat := 5684

/-- Zephyr value of the `AF_INET` address family constant. -/
def AF_INET : Nat := 1

/-- `sizeof(struct sockaddr_in)`; the source comments it is 8 bytes in Zephyr. -/
def sizeof_sockaddr_in : Nat := 8

/-- `COAP_DTLS_PKI_SETUP_VERSION` (concrete value irrelevant to the claims). -/
def COAP_DTLS_PKI_SETUP_VERSION : Nat := 1

/-- Network byte order of a 16-bit port, as `htons` produces it. -/
def htons (x : Nat) : Nat := (x % 256) * 256 + (x / 256) % 256

/-! ## IPv4 parsing (the `inet_pton(AF_INET, ...)` external collaborator)

`inet_pton` is OS code, not part of this repository.
Modelled from the spec: "Resolution here is numeric-only (no name
resolution); a non-numeric host is a SetupFailure" — a host is accepted
exactly when it is a dotted-quad numeric IPv4 address: four groups of
one to three decimal digits, each group at most 255. -/

/-- Split a character list at every dot, keeping empty groups. -/
def splitDots : List Char → List (List Char)
  | [] => [[]]
  | c :: rest =>
    let r := splitDots rest
    if c = '.' then [] :: r
    else
      match r with
      | g :: gs => (c :: g) :: gs
      | [] => [[c]]

/-- Modelled from the spec: one decimal octet of a numeric IPv4 address. -/
def parseOctet (cs : List Char) : Option Nat :=
  if cs = [] then none
  else if cs.length ≤ 3 ∧ cs.all Char.isDigit then
    let v := cs.foldl (fun a c => a * 10 + (c.toNat - 48)) 0
    if v ≤ 255 then some v else none
  else none

/-- Modelled from the spec: numeric-only IPv4 resolution (`inet_pton`). -/
def parseIPv4 (s : String) : Option (List Nat) :=
  let gs := splitDots s.data
  if gs.length = 4 then
    match gs.mapM parseOctet with
    | some vs => some vs
    | none => none
  else none

/-- A host string is a valid numeric IPv4 address. -/
def validIPv4 (s : String) : Bool := (parseIPv4 s).isSome

/-! ## `setup_destination_address` (identical in all three variants) -/

/-- The `coap_address_t` produced by `setup_destination_address`:
`dst->size`, `dst->addr.sa.sa_family`, and the `sockaddr_in` fields. -/
structure CoapAddress where
  size : Nat
  saFamily : Nat
  sinFamily : Nat
  sinPort : Nat
  sinAddr : List Nat
deriving DecidableEq, Repr

/-- `setup_destination_address(dst, host, port)`: zero the address, set
`sin_family`/`sin_port`, convert the host with `inet_pton` (returning 0
on failure), then set `dst->size = sizeof(struct sockaddr_in)` and
`dst->addr.sa.sa_family = AF_INET`.  `none` models the `return 0` path. -/
def setup_destination_address (host : String) (port : Nat) : Option CoapAddress :=
  match parseIPv4 host with
  | none => none
  | some octets =>
      some ⟨sizeof_sockaddr_in, AF_INET, AF_INET, htons (port % 65536), octets⟩

/-! ## DTLS security policy objects -/

/-- The fields of `coap_dtls_pki_t` that the clients assign (everything
else is left at the `memset` zero value). -/
structure CoapDtlsPki where
  version : Nat
  verify_peer_cert : Nat
  is_rpk_not_cert : Nat
deriving DecidableEq, Repr

/-- `setup_minimal_pki` of the classical mbedtls client: `memset` to
zero, then `version`, `verify_peer_cert = 0`, `is_rpk_not_cert = 0`. -/
def setup_minimal_pki : CoapDtlsPki :=
  ⟨COAP_DTLS_PKI_SETUP_VERSION, 0, 0⟩

/-- `setup_pki_with_mlkem` of the PQC client: same assignments
(`verify_peer_cert = 0`, certificate fields left zeroed). -/
def setup_pki_with_mlkem : CoapDtlsPki :=
  ⟨COAP_DTLS_PKI_SETUP_VERSION, 0, 0⟩

/-! ## The Wi-Fi retry loop (mbedtls classical and PQC variants) -/

/-- Observable actions of the Wi-Fi connection phase. -/
inductive WAct
  | attempt (n : Nat)
  | disconnect
  | sleep (ms : Nat)
deriving DecidableEq, Repr

/-- `for (attempt = 1; attempt <= 3 && !wifi_connected; attempt++)`:
`succ n` tells whether attempt `n` succeeds (`connect_to_wifi() >= 0 &&
wait_for_wifi_connection() >= 0`).  On failure of an attempt with
`attempt < 3`, `wifi_disconnect()` and a 2000 ms sleep are inserted.
The structural fuel is the number of loop iterations left (3 at entry). -/
def wifiLoop (succ : Nat → Bool) : Nat → Nat → Bool × List WAct
  | 0, _ => (false, [])
  | fuel + 1, attempt =>
    if succ attempt then (true, [WAct.attempt attempt])
    else
      let pre := WAct.attempt attempt ::
        (if attempt < 3 then [WAct.disconnect, WAct.sleep 2000] else [])
      let r := wifiLoop succ fuel (attempt + 1)
      (r.1, pre ++ r.2)

/-- The whole Wi-Fi retry phase: up to 3 attempts starting at attempt 1. -/
def wifiConnect (succ : Nat → Bool) : Bool × List WAct :=
  wifiLoop succ 3 1

/-- Number of connection attempts recorded in a Wi-Fi trace. -/
def countAttempts (wt : List WAct) : Nat :=
  (wt.filter fun a => match a with | WAct.attempt _ => true | _ => false).length

/-! ## The wait loop (`coap_io_process` polling) -/

/-- One call to `coap_io_process(ctx, 500)`: its return value `res`
(elapsed milliseconds, or negative on error) and whether the response
handler fired during the call (setting `have_response = 1`). -/
structure IoEvent where
  res : Int
  delivers : Bool
deriving DecidableEq, Repr

/-- How the wait loop ended. -/
inductive LoopExit
  /-- the `break` after printing the timeout message -/
  | timeoutBreak
  /-- the loop condition `have_response == 0 || is_mcast` became false -/
  | responseExit
  /-- the observed `coap_io_process` trace ran out with the loop still
  polling (the run would keep looping past the observed events) -/
  | fuelOut
deriving DecidableEq, Repr

/-- The wait loop of all three clients:

`while (have_response == 0 || is_mcast) { res = coap_io_process(ctx, 500);
if (res >= 0) { if (wait_ms > 0) { if ((unsigned)res >= wait_ms) break;
else wait_ms -= res; } } }`

Arguments: `have_response` flag, remaining `wait_ms` budget, remaining
`coap_io_process` returns.  Result: how the loop ended, the final
`have_response`, and the final `wait_ms`. -/
def waitLoop (isMcast : Bool) : Bool → Nat → List IoEvent → LoopExit × Bool × Nat
  | hr, waitMs, [] =>
    if hr && !isMcast then (LoopExit.responseExit, hr, waitMs)
    else (LoopExit.fuelOut, hr, waitMs)
  | hr, waitMs, e :: rest =>
    if hr && !isMcast then (LoopExit.responseExit, hr, waitMs)
    else
      let hr2 := hr || e.delivers
      if 0 ≤ e.res ∧ 0 < waitMs then
        if waitMs ≤ e.res.toNat then (LoopExit.timeoutBreak, hr2, waitMs)
        else waitLoop isMcast hr2 (waitMs - e.res.toNat) rest
      else waitLoop isMcast hr2 waitMs rest

/-- Cumulative elapsed time of a `coap_io_process` trace (non-negative
returns, as the unsigned values the loop subtracts). -/
def evSum (evs : List IoEvent) : Nat :=
  (evs.map (fun e => e.res.toNat)).sum

/-! ## Whole-run model -/

/-- URI scheme as produced by `coap_split_uri` and dispatched on by the
clients (`COAP_URI_SCHEME_COAP`, `_COAP_TCP`, `_COAPS`, anything else). -/
inductive Scheme
  | coap
  | coapTcp
  | coaps
  | other
deriving DecidableEq, Repr

/-- Failure stages, used to name the `goto finish` site taken. -/
inductive Stage
  | wifi
  | host
  | addr
  | ctx
  | sess
  | pdu
  | options
  | attach
deriving DecidableEq, Repr

/-- Exchange Outcome of one run. -/
inductive Outcome
  | success
  | timeout
  | parseFailure
  | setupFailure (st : Stage)
  | transportFailure
  /-- the observed io trace ended with the wait loop still polling -/
  | hung
deriving DecidableEq, Repr

/-- Which of the cleanup-managed resources have been created (are
non-NULL), plus the request PDU. -/
structure Res where
  ctx : Bool
  session : Bool
  optlist : Bool
  pdu : Bool
deriving DecidableEq, Repr

/-- Release actions observable at cleanup. -/
inductive RAct
  | optlist
  | session
  | ctx
  /-- `coap_cleanup()` -/
  | lib
  /-- `wifi_disconnect()` -/
  | wifi
  /-- deleting the request PDU (no source line emits this) -/
  | pdu
deriving DecidableEq, Repr

/-- `cleanup_resources(ctx, session, optlist)` (identical in all three
variants): delete the option list if non-NULL, release the session if
non-NULL, free the context if non-NULL, then `coap_cleanup()`. -/
def cleanup_resources (r : Res) : List RAct :=
  (if r.optlist then [RAct.optlist] else []) ++
  (if r.session then [RAct.session] else []) ++
  (if r.ctx then [RAct.ctx] else []) ++
  [RAct.lib]

/-- Environment of one run: the outcome of every external call. -/
structure Env where
  /-- `coap_split_uri` returned 0 -/
  parseOk : Bool
  scheme : Scheme
  uriHost : String
  /-- `uri.port` (0 models an absent port) -/
  uriPort : Nat
  /-- whether Wi-Fi attempt `n` succeeds (mbedtls variants) -/
  wifiSucc : Nat → Bool
  /-- `connect_to_wifi() >= 0` (wolfssl variant) -/
  wconnOk : Bool
  /-- `wait_for_wifi_connection() >= 0` (wolfssl variant) -/
  wwaitOk : Bool
  /-- `coap_new_context` succeeded -/
  ctxOk : Bool
  /-- the library session-creation call succeeded (when one is made) -/
  sessOk : Bool
  /-- `coap_pdu_init` succeeded -/
  pduOk : Bool
  /-- `coap_uri_into_options` returned nonzero -/
  optErr : Bool
  /-- `optlist` is non-NULL after the `coap_uri_into_options` call -/
  optSome : Bool
  /-- `coap_add_optlist_pdu` returned 1 -/
  attachOk : Bool
  /-- `coap_send` did not return `COAP_INVALID_MID` -/
  sendOk : Bool
  /-- `coap_session_get_default_leisure(session).integer_part` -/
  leisure : Nat
  /-- the observed `coap_io_process` returns -/
  events : List IoEvent

/-- Observable result of one run. -/
structure RunResult where
  outcome : Outcome
  exitCode : Nat
  wifiTrace : List WAct
  created : Res
  released : List RAct
  /-- how many times the `finish` cleanup label was reached -/
  cleanups : Nat
  /-- host string passed to `setup_destination_address` (if reached) -/
  hostUsed : Option String
  /-- security policy passed to `coap_new_client_session_pki` (if any) -/
  pkiUsed : Option CoapDtlsPki
deriving DecidableEq, Repr

/-- Reaching the `finish` label: `cleanup_resources(ctx, session,
optlist)` then `wifi_disconnect()`, then `return result`. -/
def finishWith (o : Outcome) (code : Nat) (r : Res) (wt : List WAct)
    (hu : Option String) (pk : Option CoapDtlsPki) : RunResult :=
  ⟨o, code, wt, r, cleanup_resources r ++ [RAct.wifi], 1, hu, pk⟩

/-- A run whose observed io trace ends inside the wait loop: cleanup is
never reached within the observation. -/
def hungWith (r : Res) (wt : List WAct) (hu : Option String)
    (pk : Option CoapDtlsPki) : RunResult :=
  ⟨Outcome.hung, EXIT_FAILURE, wt, r, [], 0, hu, pk⟩

/-- Post-loop result assignment of the classical mbedtls client and the
wolfssl client: `if (have_response != 0) { result = EXIT_SUCCESS; goto
finish; }` and otherwise `result = EXIT_SUCCESS` falls through to
`finish` after the timeout break. -/
def classicalAfterLoop (lr : LoopExit × Bool × Nat) (r : Res)
    (wt : List WAct) (hu : Option String) (pk : Option CoapDtlsPki) :
    RunResult :=
  if lr.2.1 = true then finishWith Outcome.success EXIT_SUCCESS r wt hu pk
  else if lr.1 = LoopExit.timeoutBreak then
    finishWith Outcome.timeout EXIT_SUCCESS r wt hu pk
  else hungWith r wt hu pk

/-- Post-loop result assignment of the PQC client: `result` is set to
`EXIT_SUCCESS` only inside `if (have_response != 0)`; on the timeout
break the initial `EXIT_FAILURE` reaches `return result`. -/
def pqcAfterLoop (lr : LoopExit × Bool × Nat) (r : Res)
    (wt : List WAct) (hu : Option String) (pk : Option CoapDtlsPki) :
    RunResult :=
  if lr.2.1 = true then finishWith Outcome.success EXIT_SUCCESS r wt hu pk
  else if lr.1 = LoopExit.timeoutBreak then
    finishWith Outcome.timeout EXIT_FAILURE r wt hu pk
  else hungWith r wt hu pk

/-- Session creation of the classical mbedtls client: UDP for `coap`,
TCP for `coap+tcp`, DTLS-PKI for `coaps` only when built with
`USE_DTLS`; any other scheme leaves `session` NULL. -/
def sessionCreatedMbedtls (useDtls : Bool) (env : Env) : Bool :=
  match env.scheme with
  | Scheme.coap => env.sessOk
  | Scheme.coapTcp => env.sessOk
  | Scheme.coaps => useDtls && env.sessOk
  | Scheme.other => false

/-- Security policy the classical mbedtls client passes to session
creation: `setup_minimal_pki()` on the `coaps` branch under `USE_DTLS`. -/
def pkiMbedtls (useDtls : Bool) (env : Env) : Option CoapDtlsPki :=
  if useDtls = true ∧ env.scheme = Scheme.coaps then some setup_minimal_pki
  else none

/-- The classical mbedtls client `main` (first program of
`src/mbedtls/src/main.c`), with `useDtls` standing for the `USE_DTLS`
compile flag.  `is_mcast` is the constant 0 of line 262. -/
def clientRunMbedtls (useDtls : Bool) (env : Env) : RunResult :=
  if env.parseOk = false then
    finishWith Outcome.parseFailure EXIT_FAILURE ⟨false, false, false, false⟩
      [] none none
  else if (wifiConnect env.wifiSucc).1 = false then
    finishWith (Outcome.setupFailure Stage.wifi) EXIT_FAILURE
      ⟨false, false, false, false⟩ (wifiConnect env.wifiSucc).2 none none
  else if 64 ≤ env.uriHost.length then
    finishWith (Outcome.setupFailure Stage.host) EXIT_FAILURE
      ⟨false, false, false, false⟩ (wifiConnect env.wifiSucc).2 none none
  else if (setup_destination_address env.uriHost
      (if env.uriPort ≠ 0 then env.uriPort
       else if useDtls then COAPS_DEFAULT_PORT else COAP_DEFAULT_PORT)).isNone then
    finishWith (Outcome.setupFailure Stage.addr) EXIT_FAILURE
      ⟨false, false, false, false⟩ (wifiConnect env.wifiSucc).2
      (some env.uriHost) none
  else if env.ctxOk = false then
    finishWith (Outcome.setupFailure Stage.ctx) EXIT_FAILURE
      ⟨false, false, false, false⟩ (wifiConnect env.wifiSucc).2
      (some env.uriHost) none
  else if sessionCreatedMbedtls useDtls env = false then
    finishWith (Outcome.setupFailure Stage.sess) EXIT_FAILURE
      ⟨true, false, false, false⟩ (wifiConnect env.wifiSucc).2
      (some env.uriHost) (pkiMbedtls useDtls env)
  else if env.pduOk = false then
    finishWith (Outcome.setupFailure Stage.pdu) EXIT_FAILURE
      ⟨true, true, false, false⟩ (wifiConnect env.wifiSucc).2
      (some env.uriHost) (pkiMbedtls useDtls env)
  else if env.optErr = true then
    finishWith (Outcome.setupFailure Stage.options) EXIT_FAILURE
      ⟨true, true, env.optSome, true⟩ (wifiConnect env.wifiSucc).2
      (some env.uriHost) (pkiMbedtls useDtls env)
  else if env.optSome = true ∧ env.attachOk = false then
    finishWith (Outcome.setupFailure Stage.attach) EXIT_FAILURE
      ⟨true, true, env.optSome, true⟩ (wifiConnect env.wifiSucc).2
      (some env.uriHost) (pkiMbedtls useDtls env)
  else if env.sendOk = false then
    finishWith Outcome.transportFailure EXIT_FAILURE
      ⟨true, true, env.optSome, true⟩ (wifiConnect env.wifiSucc).2
      (some env.uriHost) (pkiMbedtls useDtls env)
  else
    classicalAfterLoop
      (waitLoop false false ((env.leisure + 1) * 1000) env.events)
      ⟨true, true, env.optSome, true⟩ (wifiConnect env.wifiSucc).2
      (some env.uriHost) (pkiMbedtls useDtls env)

/-- Session creation of the PQC client: DTLS-PKI for `coaps`, plain UDP
for every other scheme (the catch-all `else` branch). -/
def sessionCreatedPqc (env : Env) : Bool := env.sessOk

/-- Security policy the PQC client passes to session creation. -/
def pkiPqc (env : Env) : Option CoapDtlsPki :=
  if env.scheme = Scheme.coaps then some setup_pki_with_mlkem else none

/-- The PQC client `main` (second program of `src/mbedtls/src/main.c`,
`main_pqc.c`).  Same retry loop and host extraction as the classical
client; default port is `COAPS_DEFAULT_PORT`; the wait loop has no
`is_mcast` disjunct; timeout leaves `result` at `EXIT_FAILURE`. -/
def clientRunPqc (env : Env) : RunResult :=
  if env.parseOk = false then
    finishWith Outcome.parseFailure EXIT_FAILURE ⟨false, false, false, false⟩
      [] none none
  else if (wifiConnect env.wifiSucc).1 = false then
    finishWith (Outcome.setupFailure Stage.wifi) EXIT_FAILURE
      ⟨false, false, false, false⟩ (wifiConnect env.wifiSucc).2 none none
  else if 64 ≤ env.uriHost.length then
    finishWith (Outcome.setupFailure Stage.host) EXIT_FAILURE
      ⟨false, false, false, false⟩ (wifiConnect env.wifiSucc).2 none none
  else if (setup_destination_address env.uriHost
      (if env.uriPort ≠ 0 then env.uriPort else COAPS_DEFAULT_PORT)).isNone then
    finishWith (Outcome.setupFailure Stage.addr) EXIT_FAILURE
      ⟨false, false, false, false⟩ (wifiConnect env.wifiSucc).2
      (some env.uriHost) none
  else if env.ctxOk = false then
    finishWith (Outcome.setupFailure Stage.ctx) EXIT_FAILURE
      ⟨false, false, false, false⟩ (wifiConnect env.wifiSucc).2
      (some env.uriHost) none
  else if sessionCreatedPqc env = false then
    finishWith (Outcome.setupFailure Stage.sess) EXIT_FAILURE
      ⟨true, false, false, false⟩ (wifiConnect env.wifiSucc).2
      (some env.uriHost) (pkiPqc env)
  else if env.pduOk = false then
    finishWith (Outcome.setupFailure Stage.pdu) EXIT_FAILURE
      ⟨true, true, false, false⟩ (wifiConnect env.wifiSucc).2
      (some env.uriHost) (pkiPqc env)
  else if env.optErr = true then
    finishWith (Outcome.setupFailure Stage.options) EXIT_FAILURE
      ⟨true, true, env.optSome, true⟩ (wifiConnect env.wifiSucc).2
      (some env.uriHost) (pkiPqc env)
  else if env.optSome = true ∧ env.attachOk = false then
    finishWith (Outcome.setupFailure Stage.attach) EXIT_FAILURE
      ⟨true, true, env.optSome, true⟩ (wifiConnect env.wifiSucc).2
      (some env.uriHost) (pkiPqc env)
  else if env.sendOk = false then
    finishWith Outcome.transportFailure EXIT_FAILURE
      ⟨true, true, env.optSome, true⟩ (wifiConnect env.wifiSucc).2
      (some env.uriHost) (pkiPqc env)
  else
    pqcAfterLoop
      (waitLoop false false ((env.leisure + 1) * 1000) env.events)
      ⟨true, true, env.optSome, true⟩ (wifiConnect env.wifiSucc).2
      (some env.uriHost) (pkiPqc env)

/-- Session creation of the wolfssl client: UDP for `coap`, TCP for
`coap+tcp`, no other branch (a `coaps` URI leaves `session` NULL). -/
def sessionCreatedWolfssl (env : Env) : Bool :=
  match env.scheme with
  | Scheme.coap => env.sessOk
  | Scheme.coapTcp => env.sessOk
  | Scheme.coaps => false
  | Scheme.other => false

/-- The fixed host literal the wolfssl client passes to
`setup_destination_address`. -/
def wolfsslHostLiteral : String := "134.102.218.18"

/-- The wolfssl client `main` (`src/wolfssl/src/main.c`): a single Wi-Fi
attempt (`connect_to_wifi`, then `wait_for_wifi_connection < 0` exits,
then `ret < 0` exits); `setup_destination_address(&dst,
"134.102.218.18", uri.port)` with the literal host and the parsed port;
no host-length guard; otherwise the same pipeline, with the classical
post-loop result assignment (`is_mcast` is the constant 0 of line 194). -/
def clientRunWolfssl (env : Env) : RunResult :=
  if env.parseOk = false then
    finishWith Outcome.parseFailure EXIT_FAILURE ⟨false, false, false, false⟩
      [] none none
  else if env.wwaitOk = false then
    finishWith (Outcome.setupFailure Stage.wifi) EXIT_FAILURE
      ⟨false, false, false, false⟩ [WAct.attempt 1] none none
  else if env.wconnOk = false then
    finishWith (Outcome.setupFailure Stage.wifi) EXIT_FAILURE
      ⟨false, false, false, false⟩ [WAct.attempt 1] none none
  else if (setup_destination_address wolfsslHostLiteral env.uriPort).isNone then
    finishWith (Outcome.setupFailure Stage.addr) EXIT_FAILURE
      ⟨false, false, false, false⟩ [WAct.attempt 1]
      (some wolfsslHostLiteral) none
  else if env.ctxOk = false then
    finishWith (Outcome.setupFailure Stage.ctx) EXIT_FAILURE
      ⟨false, false, false, false⟩ [WAct.attempt 1]
      (some wolfsslHostLiteral) none
  else if sessionCreatedWolfssl env = false then
    finishWith (Outcome.setupFailure Stage.sess) EXIT_FAILURE
      ⟨true, false, false, false⟩ [WAct.attempt 1]
      (some wolfsslHostLiteral) none
  else if env.pduOk = false then
    finishWith (Outcome.setupFailure Stage.pdu) EXIT_FAILURE
      ⟨true, true, false, false⟩ [WAct.attempt 1]
      (some wolfsslHostLiteral) none
  else if env.optErr = true then
    finishWith (Outcome.setupFailure Stage.options) EXIT_FAILURE
      ⟨true, true, env.optSome, true⟩ [WAct.attempt 1]
      (some wolfsslHostLiteral) none
  else if env.optSome = true ∧ env.attachOk = false then
    finishWith (Outcome.setupFailure Stage.attach) EXIT_FAILURE
      ⟨true, true, env.optSome, true⟩ [WAct.attempt 1]
      (some wolfsslHostLiteral) none
  else if env.sendOk = false then
    finishWith Outcome.transportFailure EXIT_FAILURE
      ⟨true, true, env.optSome, true⟩ [WAct.attempt 1]
      (some wolfsslHostLiteral) none
  else
    classicalAfterLoop
      (waitLoop false false ((env.leisure + 1) * 1000) env.events)
      ⟨true, true, env.optSome, true⟩ [WAct.attempt 1]
      (some wolfsslHostLiteral) none

/-! ## Reach predicates and concrete environments -/

/-- A `coap_io_process` trace that spends the whole wait budget without
ever delivering a response: all returns non-negative, none fires the
response handler, and they sum to at least the budget
`(leisure + 1) * 1000`. -/
def TimeoutTrace (env : Env) : Prop :=
  (∀ e ∈ env.events, 0 ≤ e.res ∧ e.delivers = false) ∧
  (env.leisure + 1) * 1000 ≤ evSum env.events

/-- The mbedtls classical run gets past `coap_send` (every setup stage
succeeds). -/
def ReachesSendMbedtls (u : Bool) (env : Env) : Prop :=
  env.parseOk = true ∧
  (wifiConnect env.wifiSucc).1 = true ∧
  env.uriHost.length < 64 ∧
  ¬(setup_destination_address env.uriHost
      (if env.uriPort = 0 then
        (if u = true then COAPS_DEFAULT_PORT else COAP_DEFAULT_PORT)
       else env.uriPort) = none) ∧
  env.ctxOk = true ∧
  sessionCreatedMbedtls u env = true ∧
  env.pduOk = true ∧
  env.optErr = false ∧
  ¬(env.optSome = true ∧ env.attachOk = false) ∧
  env.sendOk = true

/-- The wolfssl run gets past `coap_send`. -/
def ReachesSendWolfssl (env : Env) : Prop :=
  env.parseOk = true ∧
  env.wwaitOk = true ∧
  env.wconnOk = true ∧
  env.ctxOk = true ∧
  sessionCreatedWolfssl env = true ∧
  env.pduOk = true ∧
  env.optErr = false ∧
  ¬(env.optSome = true ∧ env.attachOk = false) ∧
  env.sendOk = true

/-- A fully successful setup whose io trace exhausts the budget without
a response (used to exhibit timeout runs). -/
def envT : Env :=
  ⟨true, Scheme.coap, "127.0.0.1", 5683, fun _ => true, true, true,
   true, true, true, false, true, true, true, 2,
   [⟨2000, false⟩, ⟨2000, false⟩]⟩

/-- Same run for the wolfssl client, but with a parsed host that differs
from the literal the code dials. -/
def envW7 : Env :=
  ⟨true, Scheme.coap, "10.0.0.1", 5683, fun _ => true, true, true,
   true, true, true, false, true, true, true, 2,
   [⟨2000, false⟩, ⟨2000, false⟩]⟩

/-- A `coaps` run whose session creation fails (the security policy has
already been built and handed to session creation). -/
def envC9 : Env :=
  ⟨true, Scheme.coaps, "127.0.0.1", 0, fun _ => true, true, true,
   true, false, true, false, true, true, true, 2, []⟩

/-- All three Wi-Fi attempts fail. -/
def envWifiFail : Env :=
  ⟨true, Scheme.coap, "127.0.0.1", 0, fun _ => false, false, false,
   true, true, true, false, true, true, true, 2, []⟩

/-- A non-numeric host. -/
def envBadHost : Env :=
  ⟨true, Scheme.coap, "nothost", 0, fun _ => true, true, true,
   true, true, true, false, true, true, true, 2, []⟩

/-- A host string of 80 characters, not below the 64-byte buffer. -/
def envLongHost : Env :=
  ⟨true, Scheme.coap,
   "11111111111111111111111111111111111111111111111111111111111111111111111111111111",
   0, fun _ => true, true, true, true, true, true, false, true, true, true,
   2, []⟩

/-- `coap_send` fails after the PDU was allocated. -/
def envSendFail : Env :=
  ⟨true, Scheme.coap, "127.0.0.1", 0, fun _ => true, true, true,
   true, true, true, false, true, true, false, 2, []⟩

/-! ## Wait-loop lemmas -/

/-- With the multicast flag clear and no response ever recorded, a trace
of non-negative returns summing to at least the (positive) budget drives
the loop to the timeout break, with `have_response` still clear. -/
theorem waitLoop_timeout (evs : List IoEvent) : ∀ waitMs : Nat, 0 < waitMs →
    (∀ e ∈ evs, 0 ≤ e.res ∧ e.delivers = false) →
    waitMs ≤ evSum evs →
    (waitLoop false false waitMs evs).1 = LoopExit.timeoutBreak ∧
    (waitLoop false false waitMs evs).2.1 = false := by
  induction evs with
  | nil =>
    intro w hw _ hsum
    simp [evSum] at hsum
    omega
  | cons e rest ih =>
    intro w hw hall hsum
    have he := hall e (List.mem_cons_self e rest)
    have hsum2 : e.res.toNat + evSum rest = evSum (e :: rest) := by
      simp [evSum]
    by_cases hle : w ≤ e.res.toNat
    · simp [waitLoop, he.1, he.2, hw, hle]
    · have hrec := ih (w - e.res.toNat) (by omega)
        (fun x hx => hall x (List.mem_cons_of_mem _ hx)) (by omega)
      simp only [waitLoop, Bool.and_self, Bool.not_false] at *
      simp [he.1, he.2, hw, hle, hrec.1, hrec.2]

/-- With the multicast flag set, the loop condition
`have_response == 0 || is_mcast` is always true, so the loop never exits
through it, whatever the trace. -/
theorem waitLoop_mcast_no_condition_exit (evs : List IoEvent) :
    ∀ (hr : Bool) (waitMs : Nat),
    (waitLoop true hr waitMs evs).1 ≠ LoopExit.responseExit := by
  induction evs with
  | nil => intro hr w; simp [waitLoop]
  | cons e rest ih =>
    intro hr w
    simp only [waitLoop, Bool.not_true, Bool.and_false, Bool.false_eq_true,
      if_false]
    split
    · split
      · simp
      · exact ih _ _
    · exact ih _ _

/-- With the multicast flag set, the timeout break still fires: any
trace of non-negative returns summing to at least the (positive)
remaining budget terminates the loop, whatever `have_response` is. -/
theorem waitLoop_mcast_timeout (evs : List IoEvent) :
    ∀ (hr : Bool) (waitMs : Nat), 0 < waitMs →
    (∀ e ∈ evs, 0 ≤ e.res) →
    waitMs ≤ evSum evs →
    (waitLoop true hr waitMs evs).1 = LoopExit.timeoutBreak := by
  induction evs with
  | nil =>
    intro hr w hw _ hsum
    simp [evSum] at hsum
    omega
  | cons e rest ih =>
    intro hr w hw hall hsum
    have he := hall e (List.mem_cons_self e rest)
    have hsum2 : e.res.toNat + evSum rest = evSum (e :: rest) := by
      simp [evSum]
    by_cases hle : w ≤ e.res.toNat
    · simp [waitLoop, he, hw, hle]
    · have hrec := ih (hr || e.delivers) (w - e.res.toNat) (by omega)
        (fun x hx => hall x (List.mem_cons_of_mem _ hx)) (by omega)
      simp [waitLoop, he, hw, hle, hrec]

/-! ## Wi-Fi retry lemmas -/

/-- Closed form of the Wi-Fi retry phase on the outcomes of the three
attempts. -/
theorem wifiConnect_eq (s : Nat → Bool) :
    wifiConnect s =
      if s 1 then (true, [WAct.attempt 1])
      else if s 2 then
        (true, [WAct.attempt 1, WAct.disconnect, WAct.sleep 2000,
                WAct.attempt 2])
      else if s 3 then
        (true, [WAct.attempt 1, WAct.disconnect, WAct.sleep 2000,
                WAct.attempt 2, WAct.disconnect, WAct.sleep 2000,
                WAct.attempt 3])
      else
        (false, [WAct.attempt 1, WAct.disconnect, WAct.sleep 2000,
                 WAct.attempt 2, WAct.disconnect, WAct.sleep 2000,
                 WAct.attempt 3]) := by
  by_cases h1 : s 1 <;> by_cases h2 : s 2 <;> by_cases h3 : s 3 <;>
    simp [wifiConnect, wifiLoop, h1, h2, h3]

/-! ## Cleanup lemmas -/

/-- Release counts on the cleanup suffix `cleanup_resources` followed by
`wifi_disconnect`: each managed resource exactly once if created, zero
times otherwise; the library cleanup and the disconnect exactly once;
the PDU never. -/
theorem cleanup_resources_count (r : Res) :
    (cleanup_resources r).count RAct.optlist = (if r.optlist then 1 else 0) ∧
    (cleanup_resources r).count RAct.session = (if r.session then 1 else 0) ∧
    (cleanup_resources r).count RAct.ctx = (if r.ctx then 1 else 0) ∧
    (cleanup_resources r).count RAct.lib = 1 ∧
    (cleanup_resources r).count RAct.wifi = 0 ∧
    (cleanup_resources r).count RAct.pdu = 0 := by
  rcases r with ⟨c, s, o, p⟩
  cases c <;> cases s <;> cases o <;> cases p <;> decide


/-- Exhaustive list of the results the classical mbedtls run can
produce: one `finishWith` per `goto finish` site, or the hung case. -/
theorem clientRunMbedtls_branches (u : Bool) (env : Env) :
    clientRunMbedtls u env = finishWith Outcome.parseFailure EXIT_FAILURE
      ⟨false, false, false, false⟩ [] none none ∨
    clientRunMbedtls u env = finishWith (Outcome.setupFailure Stage.wifi)
      EXIT_FAILURE ⟨false, false, false, false⟩ (wifiConnect env.wifiSucc).2
      none none ∨
    clientRunMbedtls u env = finishWith (Outcome.setupFailure Stage.host)
      EXIT_FAILURE ⟨false, false, false, false⟩ (wifiConnect env.wifiSucc).2
      none none ∨
    clientRunMbedtls u env = finishWith (Outcome.setupFailure Stage.addr)
      EXIT_FAILURE ⟨false, false, false, false⟩ (wifiConnect env.wifiSucc).2
      (some env.uriHost) none ∨
    clientRunMbedtls u env = finishWith (Outcome.setupFailure Stage.ctx)
      EXIT_FAILURE ⟨false, false, false, false⟩ (wifiConnect env.wifiSucc).2
      (some env.uriHost) none ∨
    clientRunMbedtls u env = finishWith (Outcome.setupFailure Stage.sess)
      EXIT_FAILURE ⟨true, false, false, false⟩ (wifiConnect env.wifiSucc).2
      (some env.uriHost) (pkiMbedtls u env) ∨
    clientRunMbedtls u env = finishWith (Outcome.setupFailure Stage.pdu)
      EXIT_FAILURE ⟨true, true, false, false⟩ (wifiConnect env.wifiSucc).2
      (some env.uriHost) (pkiMbedtls u env) ∨
    clientRunMbedtls u env = finishWith (Outcome.setupFailure Stage.options)
      EXIT_FAILURE ⟨true, true, env.optSome, true⟩ (wifiConnect env.wifiSucc).2
      (some env.uriHost) (pkiMbedtls u env) ∨
    clientRunMbedtls u env = finishWith (Outcome.setupFailure Stage.attach)
      EXIT_FAILURE ⟨true, true, env.optSome, true⟩ (wifiConnect env.wifiSucc).2
      (some env.uriHost) (pkiMbedtls u env) ∨
    clientRunMbedtls u env = finishWith Outcome.transportFailure
      EXIT_FAILURE ⟨true, true, env.optSome, true⟩ (wifiConnect env.wifiSucc).2
      (some env.uriHost) (pkiMbedtls u env) ∨
    clientRunMbedtls u env = finishWith Outcome.success
      EXIT_SUCCESS ⟨true, true, env.optSome, true⟩ (wifiConnect env.wifiSucc).2
      (some env.uriHost) (pkiMbedtls u env) ∨
    clientRunMbedtls u env = finishWith Outcome.timeout
      EXIT_SUCCESS ⟨true, true, env.optSome, true⟩ (wifiConnect env.wifiSucc).2
      (some env.uriHost) (pkiMbedtls u env) ∨
    clientRunMbedtls u env = hungWith
      ⟨true, true, env.optSome, true⟩ (wifiConnect env.wifiSucc).2
      (some env.uriHost) (pkiMbedtls u env) := by
  by_cases h1 : env.parseOk = false
  · simp [clientRunMbedtls, h1]
  by_cases h2 : (wifiConnect env.wifiSucc).1 = false
  · simp [clientRunMbedtls, h1, h2]
  by_cases h3 : 64 ≤ env.uriHost.length
  · simp [clientRunMbedtls, h1, h2, h3]
  by_cases h4 : setup_destination_address env.uriHost
      (if env.uriPort = 0 then
        (if u = true then COAPS_DEFAULT_PORT else COAP_DEFAULT_PORT)
       else env.uriPort) = none
  · simp [clientRunMbedtls, h1, h2, h3, h4]
  by_cases h5 : env.ctxOk = false
  · simp [clientRunMbedtls, h1, h2, h3, h4, h5]
  by_cases h6 : sessionCreatedMbedtls u env = false
  · simp [clientRunMbedtls, h1, h2, h3, h4, h5, h6]
  by_cases h7 : env.pduOk = false
  · simp [clientRunMbedtls, h1, h2, h3, h4, h5, h6, h7]
  by_cases h8 : env.optErr = true
  · simp [clientRunMbedtls, h1, h2, h3, h4, h5, h6, h7, h8]
  by_cases h9 : env.optSome = true ∧ env.attachOk = false
  · simp [clientRunMbedtls, h1, h2, h3, h4, h5, h6, h7, h8, h9]
  by_cases h10 : env.sendOk = false
  · simp [clientRunMbedtls, h1, h2, h3, h4, h5, h6, h7, h8, h9, h10]
  by_cases hL1 : (waitLoop false false ((env.leisure + 1) * 1000) env.events).2.1
      = true
  · simp [clientRunMbedtls, classicalAfterLoop,
      h1, h2, h3, h4, h5, h6, h7, h8, h9, h10, hL1]
  by_cases hL2 : (waitLoop false false ((env.leisure + 1) * 1000) env.events).1
      = LoopExit.timeoutBreak
  · simp [clientRunMbedtls, classicalAfterLoop,
      h1, h2, h3, h4, h5, h6, h7, h8, h9, h10, hL1, hL2]
  · simp [clientRunMbedtls, classicalAfterLoop,
      h1, h2, h3, h4, h5, h6, h7, h8, h9, h10, hL1, hL2]

/-- Exhaustive list of the results the PQC run can produce.  Note the
timeout branch carries `EXIT_FAILURE`. -/
theorem clientRunPqc_branches (env : Env) :
    clientRunPqc env = finishWith Outcome.parseFailure EXIT_FAILURE
      ⟨false, false, false, false⟩ [] none none ∨
    clientRunPqc env = finishWith (Outcome.setupFailure Stage.wifi)
      EXIT_FAILURE ⟨false, false, false, false⟩ (wifiConnect env.wifiSucc).2
      none none ∨
    clientRunPqc env = finishWith (Outcome.setupFailure Stage.host)
      EXIT_FAILURE ⟨false, false, false, false⟩ (wifiConnect env.wifiSucc).2
      none none ∨
    clientRunPqc env = finishWith (Outcome.setupFailure Stage.addr)
      EXIT_FAILURE ⟨false, false, false, false⟩ (wifiConnect env.wifiSucc).2
      (some env.uriHost) none ∨
    clientRunPqc env = finishWith (Outcome.setupFailure Stage.ctx)
      EXIT_FAILURE ⟨false, false, false, false⟩ (wifiConnect env.wifiSucc).2
      (some env.uriHost) none ∨
    clientRunPqc env = finishWith (Outcome.setupFailure Stage.sess)
      EXIT_FAILURE ⟨true, false, false, false⟩ (wifiConnect env.wifiSucc).2
      (some env.uriHost) (pkiPqc env) ∨
    clientRunPqc env = finishWith (Outcome.setupFailure Stage.pdu)
      EXIT_FAILURE ⟨true, true, false, false⟩ (wifiConnect env.wifiSucc).2
      (some env.uriHost) (pkiPqc env) ∨
    clientRunPqc env = finishWith (Outcome.setupFailure Stage.options)
      EXIT_FAILURE ⟨true, true, env.optSome, true⟩ (wifiConnect env.wifiSucc).2
      (some env.uriHost) (pkiPqc env) ∨
    clientRunPqc env = finishWith (Outcome.setupFailure Stage.attach)
      EXIT_FAILURE ⟨true, true, env.optSome, true⟩ (wifiConnect env.wifiSucc).2
      (some env.uriHost) (pkiPqc env) ∨
    clientRunPqc env = finishWith Outcome.transportFailure
      EXIT_FAILURE ⟨true, true, env.optSome, true⟩ (wifiConnect env.wifiSucc).2
      (some env.uriHost) (pkiPqc env) ∨
    clientRunPqc env = finishWith Outcome.success
      EXIT_SUCCESS ⟨true, true, env.optSome, true⟩ (wifiConnect env.wifiSucc).2
      (some env.uriHost) (pkiPqc env) ∨
    clientRunPqc env = finishWith Outcome.timeout
      EXIT_FAILURE ⟨true, true, env.optSome, true⟩ (wifiConnect env.wifiSucc).2
      (some env.uriHost) (pkiPqc env) ∨
    clientRunPqc env = hungWith
      ⟨true, true, env.optSome, true⟩ (wifiConnect env.wifiSucc).2
      (some env.uriHost) (pkiPqc env) := by
  by_cases h1 : env.parseOk = false
  · simp [clientRunPqc, h1]
  by_cases h2 : (wifiConnect env.wifiSucc).1 = false
  · simp [clientRunPqc, h1, h2]
  by_cases h3 : 64 ≤ env.uriHost.length
  · simp [clientRunPqc, h1, h2, h3]
  by_cases h4 : setup_destination_address env.uriHost
      (if env.uriPort = 0 then COAPS_DEFAULT_PORT else env.uriPort) = none
  · simp [clientRunPqc, h1, h2, h3, h4]
  by_cases h5 : env.ctxOk = false
  · simp [clientRunPqc, h1, h2, h3, h4, h5]
  by_cases h6 : sessionCreatedPqc env = false
  · simp [clientRunPqc, h1, h2, h3, h4, h5, h6]
  by_cases h7 : env.pduOk = false
  · simp [clientRunPqc, h1, h2, h3, h4, h5, h6, h7]
  by_cases h8 : env.optErr = true
  · simp [clientRunPqc, h1, h2, h3, h4, h5, h6, h7, h8]
  by_cases h9 : env.optSome = true ∧ env.attachOk = false
  · simp [clientRunPqc, h1, h2, h3, h4, h5, h6, h7, h8, h9]
  by_cases h10 : env.sendOk = false
  · simp [clientRunPqc, h1, h2, h3, h4, h5, h6, h7, h8, h9, h10]
  by_cases hL1 : (waitLoop false false ((env.leisure + 1) * 1000) env.events).2.1
      = true
  · simp [clientRunPqc, pqcAfterLoop,
      h1, h2, h3, h4, h5, h6, h7, h8, h9, h10, hL1]
  by_cases hL2 : (waitLoop false false ((env.leisure + 1) * 1000) env.events).1
      = LoopExit.timeoutBreak
  · simp [clientRunPqc, pqcAfterLoop,
      h1, h2, h3, h4, h5, h6, h7, h8, h9, h10, hL1, hL2]
  · simp [clientRunPqc, pqcAfterLoop,
      h1, h2, h3, h4, h5, h6, h7, h8, h9, h10, hL1, hL2]

/-- Exhaustive list of the results the wolfssl run can produce.  The
host passed to address setup is always the fixed literal. -/
theorem clientRunWolfssl_branches (env : Env) :
    clientRunWolfssl env = finishWith Outcome.parseFailure EXIT_FAILURE
      ⟨false, false, false, false⟩ [] none none ∨
    clientRunWolfssl env = finishWith (Outcome.setupFailure Stage.wifi)
      EXIT_FAILURE ⟨false, false, false, false⟩ [WAct.attempt 1] none none ∨
    clientRunWolfssl env = finishWith (Outcome.setupFailure Stage.addr)
      EXIT_FAILURE ⟨false, false, false, false⟩ [WAct.attempt 1]
      (some wolfsslHostLiteral) none ∨
    clientRunWolfssl env = finishWith (Outcome.setupFailure Stage.ctx)
      EXIT_FAILURE ⟨false, false, false, false⟩ [WAct.attempt 1]
      (some wolfsslHostLiteral) none ∨
    clientRunWolfssl env = finishWith (Outcome.setupFailure Stage.sess)
      EXIT_FAILURE ⟨true, false, false, false⟩ [WAct.attempt 1]
      (some wolfsslHostLiteral) none ∨
    clientRunWolfssl env = finishWith (Outcome.setupFailure Stage.pdu)
      EXIT_FAILURE ⟨true, true, false, false⟩ [WAct.attempt 1]
      (some wolfsslHostLiteral) none ∨
    clientRunWolfssl env = finishWith (Outcome.setupFailure Stage.options)
      EXIT_FAILURE ⟨true, true, env.optSome, true⟩ [WAct.attempt 1]
      (some wolfsslHostLiteral) none ∨
    clientRunWolfssl env = finishWith (Outcome.setupFailure Stage.attach)
      EXIT_FAILURE ⟨true, true, env.optSome, true⟩ [WAct.attempt 1]
      (some wolfsslHostLiteral) none ∨
    clientRunWolfssl env = finishWith Outcome.transportFailure
      EXIT_FAILURE ⟨true, true, env.optSome, true⟩ [WAct.attempt 1]
      (some wolfsslHostLiteral) none ∨
    clientRunWolfssl env = finishWith Outcome.success
      EXIT_SUCCESS ⟨true, true, env.optSome, true⟩ [WAct.attempt 1]
      (some wolfsslHostLiteral) none ∨
    clientRunWolfssl env = finishWith Outcome.timeout
      EXIT_SUCCESS ⟨true, true, env.optSome, true⟩ [WAct.attempt 1]
      (some wolfsslHostLiteral) none ∨
    clientRunWolfssl env = hungWith
      ⟨true, true, env.optSome, true⟩ [WAct.attempt 1]
      (some wolfsslHostLiteral) none := by
  by_cases h1 : env.parseOk = false
  · simp [clientRunWolfssl, h1]
  by_cases h2 : env.wwaitOk = false
  · simp [clientRunWolfssl, h1, h2]
  by_cases h3 : env.wconnOk = false
  · simp [clientRunWolfssl, h1, h2, h3]
  by_cases h4 : setup_destination_address wolfsslHostLiteral env.uriPort = none
  · simp [clientRunWolfssl, h1, h2, h3, h4]
  by_cases h5 : env.ctxOk = false
  · simp [clientRunWolfssl, h1, h2, h3, h4, h5]
  by_cases h6 : sessionCreatedWolfssl env = false
  · simp [clientRunWolfssl, h1, h2, h3, h4, h5, h6]
  by_cases h7 : env.pduOk = false
  · simp [clientRunWolfssl, h1, h2, h3, h4, h5, h6, h7]
  by_cases h8 : env.optErr = true
  · simp [clientRunWolfssl, h1, h2, h3, h4, h5, h6, h7, h8]
  by_cases h9 : env.optSome = true ∧ env.attachOk = false
  · simp [clientRunWolfssl, h1, h2, h3, h4, h5, h6, h7, h8, h9]
  by_cases h10 : env.sendOk = false
  · simp [clientRunWolfssl, h1, h2, h3, h4, h5, h6, h7, h8, h9, h10]
  by_cases hL1 : (waitLoop false false ((env.leisure + 1) * 1000) env.events).2.1
      = true
  · simp [clientRunWolfssl, classicalAfterLoop,
      h1, h2, h3, h4, h5, h6, h7, h8, h9, h10, hL1]
  by_cases hL2 : (waitLoop false false ((env.leisure + 1) * 1000) env.events).1
      = LoopExit.timeoutBreak
  · simp [clientRunWolfssl, classicalAfterLoop,
      h1, h2, h3, h4, h5, h6, h7, h8, h9, h10, hL1, hL2]
  · simp [clientRunWolfssl, classicalAfterLoop,
      h1, h2, h3, h4, h5, h6, h7, h8, h9, h10, hL1, hL2]

/-! ## Claim theorems -/

/-- Claim C1: for every run that reaches the wait loop with the budget
derived from the session's default leisure, if the event primitive's
non-negative returns cumulatively reach the budget before any response
is recorded, the loop terminates and the outcome is Timeout (reported
as completion without payload), not TransportFailure and not a
non-terminating loop — in the mbedtls classical client and in the
wolfssl client. -/
theorem c1_timeout_outcome (u : Bool) (env1 env2 : Env)
    (hr1 : ReachesSendMbedtls u env1) (ht1 : TimeoutTrace env1)
    (hr2 : ReachesSendWolfssl env2) (ht2 : TimeoutTrace env2) :
    (clientRunMbedtls u env1).outcome = Outcome.timeout ∧
    (clientRunWolfssl env2).outcome = Outcome.timeout := by
  obtain ⟨p1, w1, l1, a1, x1, s1, d1, o1, t1, n1⟩ := hr1
  obtain ⟨tall1, tsum1⟩ := ht1
  obtain ⟨p2, w2, c2, x2, s2, d2, o2, t2, n2⟩ := hr2
  obtain ⟨tall2, tsum2⟩ := ht2
  have hw1 := waitLoop_timeout env1.events ((env1.leisure + 1) * 1000)
    (by omega) tall1 tsum1
  have hw2 := waitLoop_timeout env2.events ((env2.leisure + 1) * 1000)
    (by omega) tall2 tsum2
  have l1n : ¬64 ≤ env1.uriHost.length := by omega
  have hlit : parseIPv4 wolfsslHostLiteral = some [134, 102, 218, 18] := by
    decide
  constructor
  · simp [clientRunMbedtls, classicalAfterLoop, finishWith,
      p1, w1, l1n, a1, x1, s1, d1, o1, t1, n1, hw1.1, hw1.2]
  · simp [clientRunWolfssl, classicalAfterLoop, finishWith,
      setup_destination_address, hlit,
      p2, w2, c2, x2, s2, d2, o2, t2, n2, hw2.1, hw2.2]

/-- Claim C1 witness: a concrete fully-successful setup with a
budget-exhausting response-free trace times out in both clients. -/
theorem c1_witness :
    (clientRunMbedtls false envT).outcome = Outcome.timeout ∧
    (clientRunWolfssl envT).outcome = Outcome.timeout :=
  c1_timeout_outcome false envT envT
    (by unfold ReachesSendMbedtls; decide)
    (by unfold TimeoutTrace; decide)
    (by unfold ReachesSendWolfssl; decide)
    (by unfold TimeoutTrace; decide)

/-- Claim C2: every run that ends (success, timeout, or a failure at any
stage) executes the single cleanup path exactly once; that path releases
in dependency order the pending option list, the session, and the
library context — each exactly once and only if created — then performs
the library cleanup and disconnects connectivity; it tolerates any
subset of the resources being absent. -/
theorem c2_single_cleanup (u : Bool) (env : Env)
    (h : (clientRunMbedtls u env).outcome ≠ Outcome.hung) :
    (clientRunMbedtls u env).cleanups = 1 ∧
    (clientRunMbedtls u env).released =
      cleanup_resources (clientRunMbedtls u env).created ++ [RAct.wifi] ∧
    ((clientRunMbedtls u env).released.count RAct.optlist =
      if (clientRunMbedtls u env).created.optlist then 1 else 0) ∧
    ((clientRunMbedtls u env).released.count RAct.session =
      if (clientRunMbedtls u env).created.session then 1 else 0) ∧
    ((clientRunMbedtls u env).released.count RAct.ctx =
      if (clientRunMbedtls u env).created.ctx then 1 else 0) ∧
    (clientRunMbedtls u env).released.count RAct.lib = 1 ∧
    (clientRunMbedtls u env).released.count RAct.wifi = 1 := by
  rcases clientRunMbedtls_branches u env with
    hb|hb|hb|hb|hb|hb|hb|hb|hb|hb|hb|hb|hb <;>
    rw [hb] at h ⊢ <;>
    simp [finishWith, hungWith, cleanup_resources_count] at h ⊢

/-- Claim C2 witness: the concrete timeout run cleans up exactly once,
releasing exactly the created resources. -/
theorem c2_witness :
    (clientRunMbedtls false envT).cleanups = 1 ∧
    (clientRunMbedtls false envT).released.count RAct.lib = 1 :=
  ⟨(c2_single_cleanup false envT (by decide)).1,
   (c2_single_cleanup false envT (by decide)).2.2.2.2.2.2⟩

/-- Claim C3: the connectivity phase makes at most 3 attempts; success
on any of them short-circuits the rest (the exhausted state is never
entered when one of the first 3 succeeds); after each failed attempt
other than the last the client disconnects and sleeps a fixed 2000 ms;
and when all 3 fail the run ends as a connectivity SetupFailure before
any address, context or session setup. -/
theorem c3_bounded_retry (s : Nat → Bool) (u : Bool) (env : Env)
    (hs1 : env.wifiSucc 1 = false) (hs2 : env.wifiSucc 2 = false)
    (hs3 : env.wifiSucc 3 = false) (hp : env.parseOk = true) :
    countAttempts (wifiConnect s).2 ≤ 3 ∧
    ((s 1 = true ∨ s 2 = true ∨ s 3 = true) → (wifiConnect s).1 = true) ∧
    (s 1 = true → (wifiConnect s).2 = [WAct.attempt 1]) ∧
    (s 1 = false → s 2 = true → (wifiConnect s).2 =
      [WAct.attempt 1, WAct.disconnect, WAct.sleep 2000, WAct.attempt 2]) ∧
    (s 1 = false → s 2 = false → s 3 = true → (wifiConnect s).2 =
      [WAct.attempt 1, WAct.disconnect, WAct.sleep 2000, WAct.attempt 2,
       WAct.disconnect, WAct.sleep 2000, WAct.attempt 3]) ∧
    (s 1 = false → s 2 = false → s 3 = false → wifiConnect s =
      (false,
       [WAct.attempt 1, WAct.disconnect, WAct.sleep 2000, WAct.attempt 2,
        WAct.disconnect, WAct.sleep 2000, WAct.attempt 3])) ∧
    (clientRunMbedtls u env).outcome = Outcome.setupFailure Stage.wifi ∧
    (clientRunMbedtls u env).created = ⟨false, false, false, false⟩ ∧
    (clientRunMbedtls u env).hostUsed = none := by
  have hwf : (wifiConnect env.wifiSucc).1 = false := by
    rw [wifiConnect_eq env.wifiSucc]
    simp [hs1, hs2, hs3]
  refine ⟨?_, ?_, ?_, ?_, ?_, ?_, ?_, ?_, ?_⟩
  · by_cases a1 : s 1 <;> by_cases a2 : s 2 <;> by_cases a3 : s 3 <;>
      rw [wifiConnect_eq s] <;> simp [a1, a2, a3, countAttempts]
  · intro hor
    rw [wifiConnect_eq s]
    rcases hor with a | a | a <;> simp [a] <;>
      by_cases b1 : s 1 <;> by_cases b2 : s 2 <;> simp [b1, b2]
  · intro a1; rw [wifiConnect_eq s]; simp [a1]
  · intro a1 a2; rw [wifiConnect_eq s]; simp [a1, a2]
  · intro a1 a2 a3; rw [wifiConnect_eq s]; simp [a1, a2, a3]
  · intro a1 a2 a3; rw [wifiConnect_eq s]; simp [a1, a2, a3]
  · simp [clientRunMbedtls, finishWith, hp, hwf]
  · simp [clientRunMbedtls, finishWith, hp, hwf]
  · simp [clientRunMbedtls, finishWith, hp, hwf]

/-- Claim C3 witness: with three failing attempts the run fails at the
connectivity stage and no resource is ever created. -/
theorem c3_witness :
    (clientRunMbedtls false envWifiFail).outcome =
      Outcome.setupFailure Stage.wifi :=
  (c3_bounded_retry (fun _ => false) false envWifiFail
    rfl rfl rfl rfl).2.2.2.2.2.2.1

/-- Claim C4 counterexample: with the multicast flag set, a single
budget-reaching return terminates the wait loop through the timeout
break — so the elapsed-time budget does end the loop, refuting the claim
that multicast-style exchanges loop indefinitely with no budget
enforcement. -/
theorem c4_counterexample :
    waitLoop true false 1000 [⟨1000, false⟩] =
      (LoopExit.timeoutBreak, false, 1000) := by decide

/-- Claim C4 (amended): with the multicast flag set, a recorded response
never terminates the wait loop (the loop-condition exit is unreachable),
but budget enforcement remains in force: any trace of non-negative
returns summing to at least the positive remaining budget ends the loop
via the timeout break. -/
theorem c4_mcast_loop (evs : List IoEvent) (hr : Bool) (waitMs : Nat)
    (hpos : 0 < waitMs) (hnn : ∀ e ∈ evs, 0 ≤ e.res)
    (hsum : waitMs ≤ evSum evs) :
    (waitLoop true hr waitMs evs).1 = LoopExit.timeoutBreak ∧
    ∀ (hr2 : Bool) (w2 : Nat) (evs2 : List IoEvent),
      (waitLoop true hr2 w2 evs2).1 ≠ LoopExit.responseExit :=
  ⟨waitLoop_mcast_timeout evs hr waitMs hpos hnn hsum,
   fun hr2 w2 evs2 => waitLoop_mcast_no_condition_exit evs2 hr2 w2⟩

/-- Claim C4 witness: even with a response already recorded, the
multicast loop is ended by the budget. -/
theorem c4_witness :
    (waitLoop true true 500 [⟨600, true⟩]).1 = LoopExit.timeoutBreak :=
  (c4_mcast_loop [⟨600, true⟩] true 500 (by decide) (by decide)
    (by decide)).1

/-- Claim C5 counterexample: a PQC run whose setup fully succeeds and
whose wait budget elapses without a response ends with outcome Timeout
but exit code `EXIT_FAILURE`, not the success code — refuting the claim
for the PQC variant. -/
theorem c5_counterexample :
    (clientRunPqc envT).outcome = Outcome.timeout ∧
    (clientRunPqc envT).exitCode = EXIT_FAILURE ∧
    EXIT_FAILURE ≠ EXIT_SUCCESS := by decide

/-- Claim C5 (amended): in the classical mbedtls client and the wolfssl
client a timeout exits with the success code, like a received response,
and every setup/parse/transport failure exits with the failure code; in
the PQC client, however, a timeout exits with the failure code. -/
theorem c5_exit_codes (u : Bool) (env : Env) (st : Stage) :
    ((clientRunMbedtls u env).outcome = Outcome.timeout →
      (clientRunMbedtls u env).exitCode = EXIT_SUCCESS) ∧
    ((clientRunMbedtls u env).outcome = Outcome.success →
      (clientRunMbedtls u env).exitCode = EXIT_SUCCESS) ∧
    ((clientRunMbedtls u env).outcome = Outcome.parseFailure →
      (clientRunMbedtls u env).exitCode = EXIT_FAILURE) ∧
    ((clientRunMbedtls u env).outcome = Outcome.setupFailure st →
      (clientRunMbedtls u env).exitCode = EXIT_FAILURE) ∧
    ((clientRunMbedtls u env).outcome = Outcome.transportFailure →
      (clientRunMbedtls u env).exitCode = EXIT_FAILURE) ∧
    ((clientRunWolfssl env).outcome = Outcome.timeout →
      (clientRunWolfssl env).exitCode = EXIT_SUCCESS) ∧
    ((clientRunPqc env).outcome = Outcome.timeout →
      (clientRunPqc env).exitCode = EXIT_FAILURE) := by
  refine ⟨?_, ?_, ?_, ?_, ?_, ?_, ?_⟩
  · intro h
    rcases clientRunMbedtls_branches u env with
      hb|hb|hb|hb|hb|hb|hb|hb|hb|hb|hb|hb|hb <;>
      rw [hb] at h ⊢ <;> simp [finishWith, hungWith] at h ⊢
  · intro h
    rcases clientRunMbedtls_branches u env with
      hb|hb|hb|hb|hb|hb|hb|hb|hb|hb|hb|hb|hb <;>
      rw [hb] at h ⊢ <;> simp [finishWith, hungWith] at h ⊢
  · intro h
    rcases clientRunMbedtls_branches u env with
      hb|hb|hb|hb|hb|hb|hb|hb|hb|hb|hb|hb|hb <;>
      rw [hb] at h ⊢ <;> simp [finishWith, hungWith] at h ⊢
  · intro h
    rcases clientRunMbedtls_branches u env with
      hb|hb|hb|hb|hb|hb|hb|hb|hb|hb|hb|hb|hb <;>
      rw [hb] at h ⊢ <;> simp [finishWith, hungWith] at h ⊢
  · intro h
    rcases clientRunMbedtls_branches u env with
      hb|hb|hb|hb|hb|hb|hb|hb|hb|hb|hb|hb|hb <;>
      rw [hb] at h ⊢ <;> simp [finishWith, hungWith] at h ⊢
  · intro h
    rcases clientRunWolfssl_branches env with
      hb|hb|hb|hb|hb|hb|hb|hb|hb|hb|hb|hb <;>
      rw [hb] at h ⊢ <;> simp [finishWith, hungWith] at h ⊢
  · intro h
    rcases clientRunPqc_branches env with
      hb|hb|hb|hb|hb|hb|hb|hb|hb|hb|hb|hb|hb <;>
      rw [hb] at h ⊢ <;> simp [finishWith, hungWith] at h ⊢

/-- Claim C5 witness: a concrete classical-client timeout run exits with
the success code. -/
theorem c5_witness :
    (clientRunMbedtls false envT).exitCode = EXIT_SUCCESS :=
  (c5_exit_codes false envT Stage.wifi).1 (by decide)

/-- Claim C6: when `coap_io_process` returns a negative value and the
loop is still running, that iteration neither breaks the loop nor
decreases the remaining budget: the run simply continues polling on the
rest of the trace with the same `wait_ms`, so a negative return is never
fatal and never by itself produces a TransportFailure. -/
theorem c6_negative_return (isMcast hr : Bool) (waitMs : Nat) (e : IoEvent)
    (rest : List IoEvent) (hneg : e.res < 0)
    (hrun : (hr && !isMcast) = false) :
    waitLoop isMcast hr waitMs (e :: rest) =
      waitLoop isMcast (hr || e.delivers) waitMs rest := by
  have hcond : ¬(0 ≤ e.res ∧ 0 < waitMs) := fun hc => absurd hc.1 (by omega)
  simp [waitLoop, hrun, hcond]

/-- Claim C6 witness: a concrete negative return is skipped without
consuming any budget. -/
theorem c6_witness :
    waitLoop false false 1000 [⟨-1, false⟩] = waitLoop false false 1000 [] :=
  c6_negative_return false false 1000 ⟨-1, false⟩ [] (by decide) (by decide)

/-- Claim C7 counterexample: in the wolfssl client the host passed to
address setup is the fixed literal `"134.102.218.18"`, not the host of
the parsed URI — with a parsed host `"10.0.0.1"` the address setup still
dials the literal, refuting the claim that the host used for address
setup is always a copy of the parsed host. -/
theorem c7_counterexample :
    (clientRunWolfssl envW7).hostUsed = some wolfsslHostLiteral ∧
    envW7.uriHost = "10.0.0.1" ∧
    ¬((clientRunWolfssl envW7).hostUsed = some envW7.uriHost) := by decide

/-- Claim C7 (amended): in the mbedtls clients the host used for address
setup is always the bounded copy of the parsed host, and a host not
strictly shorter than the 64-byte buffer is a SetupFailure before any
context or session is created; the wolfssl client, however, always
passes the fixed literal host, independent of the parsed URI and with no
length guard. -/
theorem c7_host_handling (u : Bool) (env : Env)
    (hp : env.parseOk = true) (hw : (wifiConnect env.wifiSucc).1 = true)
    (hlen : 64 ≤ env.uriHost.length) :
    (∀ (u2 : Bool) (env2 : Env),
      (clientRunMbedtls u2 env2).hostUsed = none ∨
      (clientRunMbedtls u2 env2).hostUsed = some env2.uriHost) ∧
    ((clientRunMbedtls u env).outcome = Outcome.setupFailure Stage.host ∧
     (clientRunMbedtls u env).created = ⟨false, false, false, false⟩) ∧
    (∀ env2 : Env,
      (clientRunWolfssl env2).hostUsed = none ∨
      (clientRunWolfssl env2).hostUsed = some wolfsslHostLiteral) := by
  refine ⟨?_, ?_, ?_⟩
  · intro u2 env2
    rcases clientRunMbedtls_branches u2 env2 with
      hb|hb|hb|hb|hb|hb|hb|hb|hb|hb|hb|hb|hb <;>
      rw [hb] <;> simp [finishWith, hungWith]
  · constructor <;> simp [clientRunMbedtls, finishWith, hp, hw, hlen]
  · intro env2
    rcases clientRunWolfssl_branches env2 with
      hb|hb|hb|hb|hb|hb|hb|hb|hb|hb|hb|hb <;>
      rw [hb] <;> simp [finishWith, hungWith]

/-- Claim C7 witness: an 80-character host makes the mbedtls run fail
before any context or session exists. -/
theorem c7_witness :
    (clientRunMbedtls false envLongHost).outcome =
      Outcome.setupFailure Stage.host :=
  (c7_host_handling false envLongHost (by decide) (by decide)
    (by decide)).2.1.1

/-- Claim C8: address setup succeeds exactly when the host is a valid
numeric IPv4 address; on success the endpoint's structure-size field is
`sizeof(struct sockaddr_in)` and both family fields are `AF_INET`; and a
run with a non-numeric host fails as a SetupFailure at the address
stage. -/
theorem c8_address_resolution (host : String) (port : Nat) (u : Bool)
    (env : Env) (hp : env.parseOk = true)
    (hw : (wifiConnect env.wifiSucc).1 = true)
    (hlen : env.uriHost.length < 64)
    (hinv : validIPv4 env.uriHost = false) :
    (validIPv4 host = true ↔
      (setup_destination_address host port).isSome = true) ∧
    (∀ ep : CoapAddress, setup_destination_address host port = some ep →
      ep.size = sizeof_sockaddr_in ∧ ep.saFamily = AF_INET ∧
      ep.sinFamily = AF_INET) ∧
    (clientRunMbedtls u env).outcome = Outcome.setupFailure Stage.addr := by
  refine ⟨?_, ?_, ?_⟩
  · cases hq : parseIPv4 host <;>
      simp [validIPv4, setup_destination_address, hq]
  · intro ep hep
    cases hq : parseIPv4 host
    · simp [setup_destination_address, hq] at hep
    · simp [setup_destination_address, hq] at hep
      simp [← hep]
  · have haddr : setup_destination_address env.uriHost
        (if env.uriPort = 0 then
          (if u = true then COAPS_DEFAULT_PORT else COAP_DEFAULT_PORT)
         else env.uriPort) = none := by
      cases hq : parseIPv4 env.uriHost
      · simp [setup_destination_address, hq]
      · exfalso
        simp [validIPv4, hq] at hinv
    have hlen2 : ¬64 ≤ env.uriHost.length := by omega
    simp [clientRunMbedtls, finishWith, hp, hw, hlen2, haddr]

/-- Claim C8 witness: the non-numeric host `"nothost"` makes address
setup fail and the run end as an address SetupFailure. -/
theorem c8_witness :
    (clientRunMbedtls false envBadHost).outcome =
      Outcome.setupFailure Stage.addr :=
  (c8_address_resolution "127.0.0.1" 5683 false envBadHost
    (by decide) (by decide) (by decide) (by decide)).2.2

/-- The only policy the classical client can hand to session creation is
`setup_minimal_pki`. -/
theorem pkiMbedtls_cases (u : Bool) (env : Env) (p : CoapDtlsPki)
    (h : pkiMbedtls u env = some p) : p = setup_minimal_pki := by
  unfold pkiMbedtls at h
  split at h
  · exact (Option.some.inj h).symm
  · cases h

/-- The only policy the PQC client can hand to session creation is
`setup_pki_with_mlkem`. -/
theorem pkiPqc_cases (env : Env) (p : CoapDtlsPki)
    (h : pkiPqc env = some p) : p = setup_pki_with_mlkem := by
  unfold pkiPqc at h
  split at h
  · exact (Option.some.inj h).symm
  · cases h

/-- Claim C9: every security policy passed to secured (coaps) session
creation — in the classical and in the post-quantum variant — has its
peer-certificate-verification field equal to 0: certificate verification
is disabled on every run, and no code path enables it. -/
theorem c9_cert_verification_disabled (u : Bool) (env : Env)
    (p : CoapDtlsPki)
    (hm : (clientRunMbedtls u env).pkiUsed = some p ∨
          (clientRunPqc env).pkiUsed = some p) :
    p.verify_peer_cert = 0 ∧
    setup_minimal_pki.verify_peer_cert = 0 ∧
    setup_pki_with_mlkem.verify_peer_cert = 0 := by
  refine ⟨?_, rfl, rfl⟩
  rcases hm with hm | hm
  · rcases clientRunMbedtls_branches u env with
      hb|hb|hb|hb|hb|hb|hb|hb|hb|hb|hb|hb|hb <;>
      rw [hb] at hm <;> simp [finishWith, hungWith] at hm <;>
      rw [pkiMbedtls_cases u env p hm] <;> rfl
  · rcases clientRunPqc_branches env with
      hb|hb|hb|hb|hb|hb|hb|hb|hb|hb|hb|hb|hb <;>
      rw [hb] at hm <;> simp [finishWith, hungWith] at hm <;>
      rw [pkiPqc_cases env p hm] <;> rfl

/-- Claim C9 witness: the policy handed to the concrete `coaps` session
creation has verification disabled. -/
theorem c9_witness : setup_minimal_pki.verify_peer_cert = 0 :=
  (c9_cert_verification_disabled true envC9 setup_minimal_pki
    (Or.inl (by decide))).1

/-- Claim C10: the cleanup path releases only the option list, the
session and the context — never the request PDU — so every run that
fails after the PDU is allocated but before a successful send (option
creation failure, option-attach failure, or send failure) leaves the
allocated PDU unreleased on the cleanup path. -/
theorem c10_pdu_not_released (u : Bool) (env : Env)
    (h : (clientRunMbedtls u env).outcome = Outcome.transportFailure ∨
         (clientRunMbedtls u env).outcome = Outcome.setupFailure Stage.options ∨
         (clientRunMbedtls u env).outcome = Outcome.setupFailure Stage.attach) :
    (clientRunMbedtls u env).created.pdu = true ∧
    (clientRunMbedtls u env).released.count RAct.pdu = 0 ∧
    ∀ r : Res, (cleanup_resources r).count RAct.pdu = 0 := by
  refine ⟨?_, ?_, fun r => (cleanup_resources_count r).2.2.2.2.2⟩ <;>
    rcases clientRunMbedtls_branches u env with
      hb|hb|hb|hb|hb|hb|hb|hb|hb|hb|hb|hb|hb <;>
    rw [hb] at h ⊢ <;>
    simp [finishWith, hungWith, cleanup_resources_count] at h ⊢

/-- Claim C10 witness: the concrete send-failure run has an allocated
PDU and a cleanup that never deletes it. -/
theorem c10_witness :
    (clientRunMbedtls false envSendFail).created.pdu = true ∧
    (clientRunMbedtls false envSendFail).released.count RAct.pdu = 0 :=
  ⟨(c10_pdu_not_released false envSendFail (Or.inl (by decide))).1,
   (c10_pdu_not_released false envSendFail (Or.inl (by decide))).2.1⟩
